import Mathlib

/-
Verification development for the movies_study repository.

The repository's ingestion pipeline consists of four scripts
(scripts/omdb_to_csv.py, scripts/tmdb_id_from_imdb.py, scripts/tmdb_to_csv.py,
scripts/tiago.py) and two offline analysis scripts
(simple_cluster_analysis.py, cluster_analysis_script.py).

This file gives a shallow embedding of those scripts:
- HTTP is modelled by response oracles (a function from the request key to the
  decoded response: a status code plus the JSON-decoded body).
- Python `str.strip` / `str.replace` / `str.split` are embedded as structurally
  recursive functions on character lists (fuel = input length, which always
  suffices because each step consumes at least one character).
- Python floats are embedded as exact rationals extended with the IEEE special
  values +inf, -inf and NaN (rounding is irrelevant to everything proved here).
- Python exceptions (NameError, KeyError, IndexError, TypeError,
  AttributeError) are explicit values; a raised exception aborts the embedded
  run exactly where the interpreter would abort the script.
- stdout CSV rows are modelled as their cell lists (and, for omdb_to_csv, also
  serialized to the concrete output text); stderr/diagnostic prints are
  modelled only where a claim mentions them (the omdb script's messages, which
  carry the global iteration counter).
-/

/-! ## Python string primitives -/

/-- The apostrophe character (the quote used by the genre-list encoding). -/
def quoteChar : Char := Char.ofNat 39

/-- Python `str.strip()` whitespace: space, tab, newline, carriage return,
vertical tab, form feed. -/
def pySpace (c : Char) : Bool :=
  c == ' ' || c == '\t' || c == '\n' || c == '\r' ||
    c == Char.ofNat 11 || c == Char.ofNat 12

def listStripChars (l : List Char) : List Char :=
  ((l.dropWhile pySpace).reverse.dropWhile pySpace).reverse

/-- Python `s.strip()`. -/
def pyStrip (s : String) : String := (listStripChars s.toList).asString

/-- Python `s.replace(old, new)` on character lists: replace every
non-overlapping occurrence of `old`, scanning left to right.  The fuel is an
upper bound on the number of characters still to be scanned; each step consumes
at least one character, so fuel `l.length` always suffices. -/
def listReplaceF (old new : List Char) : Nat → List Char → List Char
  | _, [] => []
  | 0, l => l
  | fuel + 1, c :: rest =>
    if old.isPrefixOf (c :: rest) && !old.isEmpty then
      new ++ listReplaceF old new fuel (rest.drop (old.length - 1))
    else
      c :: listReplaceF old new fuel rest

def listReplace (old new l : List Char) : List Char := listReplaceF old new l.length l

/-- Python `s.replace(old, new)` (for a non-empty `old`, the only use here). -/
def pyReplace (s old new : String) : String :=
  (listReplace old.toList new.toList s.toList).asString

/-- Python `s.split(sep)` for a non-empty separator, on character lists.
`[].split` yields `[[]]`, matching Python where `c.split(sep) == [c]` for a string
with no separator occurrence, in particular `p.split(sep) == [p]` for empty `p`. -/
def listSplitF (sep : List Char) : Nat → List Char → List (List Char)
  | _, [] => [[]]
  | 0, l => [l]
  | fuel + 1, c :: rest =>
    if sep.isPrefixOf (c :: rest) && !sep.isEmpty then
      [] :: listSplitF sep fuel (rest.drop (sep.length - 1))
    else
      match listSplitF sep fuel rest with
      | [] => [[c]]
      | g :: gs => (c :: g) :: gs

/-- Python `s.split(sep)`. -/
def pySplit (s sep : String) : List String :=
  (listSplitF sep.toList s.toList.length s.toList).map List.asString

/-- Whether `pat` occurs as a contiguous substring of `l`. -/
def hasOcc (pat : List Char) : List Char → Bool
  | [] => pat.isEmpty
  | c :: rest => pat.isPrefixOf (c :: rest) || hasOcc pat rest

/-! ## JSON values, Python truthiness, and field access -/

/-- Python exception kinds raised by the scripts. -/
inductive PyErr where
  | nameError
  | keyError
  | indexError
  | typeError
  | attrError
deriving DecidableEq, Repr

/-- A JSON-decoded Python value, as returned by `response.json()`. -/
inductive JsonVal where
  | jnull
  | jbool (b : Bool)
  | jnum (n : Int)
  | jstr (s : String)
  | jarr (xs : List JsonVal)
  | jobj (fields : List (String × JsonVal))

/-- Python truthiness (`if not data:` etc.) of a JSON-decoded value. -/
def truthyJson : JsonVal → Bool
  | .jnull => false
  | .jbool b => b
  | .jnum n => !(n == 0)
  | .jstr s => !(s == "")
  | .jarr xs => !xs.isEmpty
  | .jobj fs => !fs.isEmpty

def lookupField : List (String × JsonVal) → String → Option JsonVal
  | [], _ => none
  | (k, v) :: rest, key => if k == key then some v else lookupField rest key

/-- Python subscript `d[key]` with a string key: KeyError when the key is
missing, TypeError on a non-dict value.  (For exotic non-dict payload shapes
the exact exception kind can differ in CPython; all of them abort the run
identically, so they are collapsed to TypeError.) -/
def getKey : JsonVal → String → Except PyErr JsonVal
  | .jobj fs, key =>
    match lookupField fs key with
    | some v => .ok v
    | none => .error .keyError
  | _, _ => .error .typeError

/-- Python `d.get(key)`: `None` when the key is missing, AttributeError on a
non-dict value. -/
def jsonGet : JsonVal → String → Except PyErr JsonVal
  | .jobj fs, key => .ok ((lookupField fs key).getD .jnull)
  | _, _ => .error .attrError

/-- Python `v == str-of-False` against the JSON-decoded value `v`. -/
def isFalseStr : JsonVal → Bool
  | .jstr s => s == ("False")
  | _ => false

/-- Python `v == empty-str` against the JSON-decoded value `v`. -/
def isEmptyStr : JsonVal → Bool
  | .jstr s => s == ""
  | _ => false

def jsonQuote (s : String) : String := "\"" ++ s ++ "\""

/-- `json.dumps` with its default separators (string escaping beyond the
quotes is not reproduced; no key or value serialized by the claims needs it). -/
def jsonDumps : JsonVal → String
  | .jnull => "null"
  | .jbool true => "true"
  | .jbool false => "false"
  | .jnum n => toString n
  | .jstr s => jsonQuote s
  | .jarr xs => "[" ++ String.intercalate (", ") (xs.attach.map (fun x => jsonDumps x.1)) ++ "]"
  | .jobj fs => "\x7b" ++ String.intercalate (", ")
      (fs.attach.map (fun p => jsonQuote p.1.1 ++ ": " ++ jsonDumps p.1.2)) ++ "\x7d"
decreasing_by
  · have h := List.sizeOf_lt_of_mem x.2
    simp only [JsonVal.jarr.sizeOf_spec]
    omega
  · have h := List.sizeOf_lt_of_mem p.2
    have h2 : sizeOf p.1.2 < sizeOf p.1 := by
      obtain ⟨a, b⟩ := p.1
      simp
    simp only [JsonVal.jobj.sizeOf_spec]
    omega

/-- An HTTP response as the scripts see it: the status code and the
JSON-decoded body. -/
structure HttpResponse where
  status : Nat
  body : JsonVal

/-! ## CSV output (`csv.writer` with default dialect) -/

def csvEscapeChars (l : List Char) : List Char :=
  l.foldr (fun c acc => if c == '"' then '"' :: '"' :: acc else c :: acc) []

/-- One CSV field under QUOTE_MINIMAL: quoted (with doubled quotes) iff it
contains a delimiter, a quote, or a line-terminator character. -/
def csvField (s : String) : String :=
  if s.toList.any (fun c => c == ',' || c == '"' || c == '\n' || c == '\r') then
    "\"" ++ (csvEscapeChars s.toList).asString ++ "\""
  else s

/-- One CSV row (default line terminator `\r\n`). -/
def csvRow (cells : List String) : String :=
  String.intercalate (",") (cells.map csvField) ++ "\r\n"

/-! ## The enumerated-list identifier source

`ids = [line.strip() for line in sys.stdin if line.strip()]`, shared verbatim by
omdb_to_csv.py, tmdb_id_from_imdb.py and tmdb_to_csv.py. -/

def sourceIds (lines : List String) : List String :=
  (lines.filter (fun line => !(pyStrip line == ""))).map pyStrip

/-! ## scripts/omdb_to_csv.py -/

namespace OmdbToCsv

/-- `get_movie_details_omdb(imdb_id)`: returns the decoded body on HTTP 200
(printing the iteration counter and the id to stderr), `None` otherwise.
Result: (returned value, stderr line, new value of the global `iterations`). -/
def get_movie_details_omdb (iterations : Nat) (imdb_id : String) (resp : HttpResponse) :
    Option JsonVal × String × Nat :=
  let it := iterations + 1
  if resp.status == 200 then
    (some resp.body, toString it ++ (" Ok ") ++ imdb_id, it)
  else
    (none, ("Error fetching data for IMDb ID ") ++ imdb_id ++ (" from OMDb"), it)

/-- Observable outcome of a run of `main()`: stdout data rows (cell lists,
header row excluded), stderr lines, the ids actually requested upstream, and
the final value of the global `iterations` counter. -/
structure Run where
  rows : List (List String)
  stderr : List String
  requested : List String
  iterations : Nat
deriving DecidableEq, Repr

/-- The `for id_value in ids:` loop of `main()`: fetch, `if not data: return`,
otherwise `writer.writerow([id_value, json.dumps(data)])` and continue. -/
def loop (oracle : String → HttpResponse) : List String → Nat → Run
  | [], it => ⟨[], [], [], it⟩
  | id_value :: rest, it =>
    match get_movie_details_omdb it id_value (oracle id_value) with
    | (none, msg, it1) => ⟨[], [msg], [id_value], it1⟩
    | (some d, msg, it1) =>
      if truthyJson d then
        let s := loop oracle rest it1
        ⟨[id_value, jsonDumps d] :: s.rows, msg :: s.stderr, id_value :: s.requested, s.iterations⟩
      else
        ⟨[], [msg], [id_value], it1⟩

/-- `main()` on the given stdin lines, starting from iteration counter `it0`. -/
def main (oracle : String → HttpResponse) (lines : List String) (it0 : Nat) : Run :=
  loop oracle (sourceIds lines) it0

def header : List String := [("id"), ("response")]

/-- The full tabular stdout of a run, as the concrete output text. -/
def stdoutStr (oracle : String → HttpResponse) (lines : List String) (it0 : Nat) : String :=
  csvRow header ++ String.join ((main oracle lines it0).rows.map csvRow)

/-- An item is carried through to a written row iff its response has status 200
and a truthy decoded body (`if not data: return`). -/
def okResp (r : HttpResponse) : Bool := (r.status == 200) && truthyJson r.body

/-- The data row the script writes for a successfully processed id. -/
def rowOf (oracle : String → HttpResponse) (id_value : String) : List String :=
  [id_value, jsonDumps (oracle id_value).body]

end OmdbToCsv

/-! ## scripts/tmdb_id_from_imdb.py -/

namespace TmdbIdFromImdb

/-- The value `get_movie_id_from_imdb` returns to its caller: Python `None`
(transport error) or a value — the empty string for a zero-candidate lookup,
otherwise `data[movie_results][0][id]`. -/
inductive ResolveOut where
  | pynone
  | pyval (v : JsonVal)

/-- `get_movie_id_from_imdb(imdb_id)` of tmdb_id_from_imdb.py: on HTTP 200,
a zero-candidate `movie_results` returns the empty string (NotFound), otherwise
the first candidate's id; a non-200 status returns `None`.  Field access can
raise.  (The global `iterations` counter and the stderr prints only produce
diagnostics; the counter is threaded by the caller below.) -/
def get_movie_id_from_imdb (resp : HttpResponse) : Except PyErr ResolveOut :=
  if resp.status == 200 then
    match getKey resp.body ("movie_results") with
    | .error e => .error e
    | .ok (.jarr []) => .ok (.pyval (.jstr ""))
    | .ok (.jarr (m :: _)) =>
      match getKey m ("id") with
      | .error e => .error e
      | .ok v => .ok (.pyval v)
    | .ok _ => .error .typeError
  else
    .ok .pynone

/-- Observable outcome of a run of `main()`: stdout data rows (imdb id paired
with the resolved value, header row excluded), requested ids, the pending
exception if the run aborted, and the final `iterations` counter. -/
structure Run where
  rows : List (String × JsonVal)
  requested : List String
  exc : Option PyErr
  iterations : Nat

/-- The `for imdb_id_value in imdb_ids:` loop of `main()`:
`if tmdb_id == None: return`, `if tmdb_id == empty-str: continue`, else
`writer.writerow([imdb_id_value, tmdb_id])`. -/
def loop (oracle : String → HttpResponse) : List String → Nat → Run
  | [], it => ⟨[], [], none, it⟩
  | imdb_id_value :: rest, it =>
    let it1 := it + 1
    match get_movie_id_from_imdb (oracle imdb_id_value) with
    | .error e => ⟨[], [imdb_id_value], some e, it1⟩
    | .ok .pynone => ⟨[], [imdb_id_value], none, it1⟩
    | .ok (.pyval v) =>
      if isEmptyStr v then
        let s := loop oracle rest it1
        ⟨s.rows, imdb_id_value :: s.requested, s.exc, s.iterations⟩
      else
        let s := loop oracle rest it1
        ⟨(imdb_id_value, v) :: s.rows, imdb_id_value :: s.requested, s.exc, s.iterations⟩

def main (oracle : String → HttpResponse) (lines : List String) (it0 : Nat) : Run :=
  loop oracle (sourceIds lines) it0

/-- The loop continues past an item iff the resolver neither returned `None`
nor raised. -/
def keepGo (oracle : String → HttpResponse) (id : String) : Bool :=
  match get_movie_id_from_imdb (oracle id) with
  | .ok (.pyval _) => true
  | _ => false

/-- A row is written for an item iff the resolver returned a non-empty value. -/
def writesRow (oracle : String → HttpResponse) (id : String) : Bool :=
  match get_movie_id_from_imdb (oracle id) with
  | .ok (.pyval v) => !isEmptyStr v
  | _ => false

/-- The resolved value written for an item (junk off the written path). -/
def rowVal (oracle : String → HttpResponse) (id : String) : JsonVal :=
  match get_movie_id_from_imdb (oracle id) with
  | .ok (.pyval v) => v
  | _ => .jnull

end TmdbIdFromImdb

/-! ## scripts/tmdb_to_csv.py -/

namespace TmdbToCsv

/-- `get_movie_id_from_imdb(imdb_id)` of tmdb_to_csv.py.  Unlike the
tmdb_id_from_imdb.py version it has no length check:
`data[movie_results][0][id]` raises IndexError on a zero-candidate response.
Non-200 returns `None`.  Result paired with the new `iterations` counter. -/
def get_movie_id_from_imdb (it : Nat) (resp : HttpResponse) :
    Except PyErr (Option JsonVal) × Nat :=
  let it1 := it + 1
  if resp.status == 200 then
    match getKey resp.body ("movie_results") with
    | .error e => (.error e, it1)
    | .ok (.jarr []) => (.error .indexError, it1)
    | .ok (.jarr (m :: _)) =>
      match getKey m ("id") with
      | .error e => (.error e, it1)
      | .ok v => (.ok (some v), it1)
    | .ok _ => (.error .typeError, it1)
  else
    (.ok none, it1)

/-- `get_movie_details_tmdb(movie_id)`: decoded body on 200, else `None`. -/
def get_movie_details_tmdb (it : Nat) (resp : HttpResponse) : Option JsonVal × Nat :=
  (if resp.status == 200 then some resp.body else none, it + 1)

/-- `writer.writerow([id_value, json.dumps(data)])` of tmdb_to_csv.py's
`main()`: the name `id_value` is not bound anywhere in that script (its loop
variable is `imdb_id_value`), so evaluating the row raises NameError. -/
def writerow_id_value (_data : JsonVal) : Except PyErr (List String) :=
  .error .nameError

/-- Observable outcome of a run of `main()`: stdout data rows (header
excluded), the imdb ids sent to the find endpoint, the pending exception if
the run aborted, and the final `iterations` counter. -/
structure Run where
  rows : List (List String)
  requested : List String
  exc : Option PyErr
  iterations : Nat
deriving DecidableEq, Repr

/-- The `for imdb_id_value in imdb_ids:` loop of tmdb_to_csv.py's `main()`:
resolve (`if not real_id: return`), fetch details (`if not data: return`),
then write the row (which raises NameError, see `writerow_id_value`). -/
def loop (findO : String → HttpResponse) (detailO : JsonVal → HttpResponse) :
    List String → Nat → Run
  | [], it => ⟨[], [], none, it⟩
  | imdb_id_value :: rest, it =>
    match get_movie_id_from_imdb it (findO imdb_id_value) with
    | (.error e, it1) => ⟨[], [imdb_id_value], some e, it1⟩
    | (.ok none, it1) => ⟨[], [imdb_id_value], none, it1⟩
    | (.ok (some rid), it1) =>
      if !truthyJson rid then ⟨[], [imdb_id_value], none, it1⟩
      else
        match get_movie_details_tmdb it1 (detailO rid) with
        | (none, it2) => ⟨[], [imdb_id_value], none, it2⟩
        | (some d, it2) =>
          if !truthyJson d then ⟨[], [imdb_id_value], none, it2⟩
          else
            match writerow_id_value d with
            | .error e => ⟨[], [imdb_id_value], some e, it2⟩
            | .ok row =>
              let s := loop findO detailO rest it2
              ⟨row :: s.rows, imdb_id_value :: s.requested, s.exc, s.iterations⟩

def main (findO : String → HttpResponse) (detailO : JsonVal → HttpResponse)
    (lines : List String) (it0 : Nat) : Run :=
  loop findO detailO (sourceIds lines) it0

end TmdbToCsv

/-! ## scripts/tiago.py -/

namespace Tiago

/-- Observable events of the paginated run, in program order.  `saved c` is the
write of file `movie_c.json`; `sleep` is the `time.sleep(0.2)` pacing delay;
`skipMsg` is a skip diagnostic printed on a path that abandons the item. -/
inductive Ev where
  | pageReq (page : Nat)
  | pageErr (page : Nat)
  | tmdbReq (movie_id : JsonVal)
  | omdbReq (imdb_id : JsonVal)
  | skipMsg
  | saved (counter : Nat)
  | sleep

def evIsSleep : Ev → Bool
  | .sleep => true
  | _ => false

def evIsSaved : Ev → Bool
  | .saved _ => true
  | _ => false

def evIsPageReq (n : Nat) : Ev → Bool
  | .pageReq m => m == n
  | _ => false

/-- The body of `for movie in data[results]:` — fetch TMDb details (skip when
missing), read `imdb_id` (skip with a message when falsy; the message reads
`movie[title]`), fetch OMDb details (skip when missing or `Response == False`),
otherwise save `movie_{counter}.json`, print (reading `movie[title]`),
increment the counter and sleep 0.2s.  Returns the events, the new counter and
the pending exception (which aborts the whole script). -/
def processMovie (tmdbO omdbO : JsonVal → HttpResponse) (movie : JsonVal) (c : Nat) :
    List Ev × Nat × Option PyErr :=
  match getKey movie ("id") with
  | .error e => ([], c, some e)
  | .ok movie_id =>
    let tr := tmdbO movie_id
    match (if tr.status == 200 then some tr.body else none : Option JsonVal) with
    | none => ([.tmdbReq movie_id], c, none)
    | some d =>
      if !truthyJson d then ([.tmdbReq movie_id], c, none)
      else
        match jsonGet d ("imdb_id") with
        | .error e => ([.tmdbReq movie_id], c, some e)
        | .ok imdbv =>
          if !truthyJson imdbv then
            match getKey movie ("title") with
            | .error e => ([.tmdbReq movie_id], c, some e)
            | .ok _ => ([.tmdbReq movie_id, .skipMsg], c, none)
          else
            let orsp := omdbO imdbv
            match (if orsp.status == 200 then some orsp.body else none : Option JsonVal) with
            | none => ([.tmdbReq movie_id, .omdbReq imdbv, .skipMsg], c, none)
            | some od =>
              if !truthyJson od then ([.tmdbReq movie_id, .omdbReq imdbv, .skipMsg], c, none)
              else
                match jsonGet od ("Response") with
                | .error e => ([.tmdbReq movie_id, .omdbReq imdbv], c, some e)
                | .ok rv =>
                  if isFalseStr rv then ([.tmdbReq movie_id, .omdbReq imdbv, .skipMsg], c, none)
                  else
                    match getKey movie ("title") with
                    | .error e => ([.tmdbReq movie_id, .omdbReq imdbv, .saved c], c, some e)
                    | .ok _ => ([.tmdbReq movie_id, .omdbReq imdbv, .saved c, .sleep], c + 1, none)

/-- Trace, counter and pending exception of a (partial) run. -/
structure St where
  trace : List Ev
  counter : Nat
  exc : Option PyErr

/-- Iterate `processMovie` over one page's `results`, stopping on the first
exception. -/
def movies (tmdbO omdbO : JsonVal → HttpResponse) : List JsonVal → Nat → St
  | [], c => ⟨[], c, none⟩
  | m :: ms, c =>
    match processMovie tmdbO omdbO m c with
    | (evs, c1, some e) => ⟨evs, c1, some e⟩
    | (evs, c1, none) =>
      let s := movies tmdbO omdbO ms c1
      ⟨evs ++ s.trace, s.counter, s.exc⟩

/-- `for page in range(1, pages_to_fetch + 1):` — fetch page `p`; on 200
iterate its `results`, otherwise print the page error and continue with the
next page.  `rem` is the number of pages still to fetch. -/
def pages (pageO : Nat → HttpResponse) (tmdbO omdbO : JsonVal → HttpResponse) :
    Nat → Nat → Nat → St
  | _, 0, c => ⟨[], c, none⟩
  | p, rem + 1, c =>
    let resp := pageO p
    if resp.status == 200 then
      match getKey resp.body ("results") with
      | .error e => ⟨[.pageReq p], c, some e⟩
      | .ok (.jarr ms) =>
        let s := movies tmdbO omdbO ms c
        match s.exc with
        | some e => ⟨.pageReq p :: s.trace, s.counter, some e⟩
        | none =>
          let s2 := pages pageO tmdbO omdbO (p + 1) rem s.counter
          ⟨.pageReq p :: (s.trace ++ s2.trace), s2.counter, s2.exc⟩
      | .ok _ => ⟨[.pageReq p], c, some .typeError⟩
    else
      let s2 := pages pageO tmdbO omdbO (p + 1) rem c
      ⟨.pageReq p :: .pageErr p :: s2.trace, s2.counter, s2.exc⟩

def pages_to_fetch : Nat := 100

/-- The whole module-level run: pages 1..100, `movie_counter` starting at 1. -/
def run (pageO : Nat → HttpResponse) (tmdbO omdbO : JsonVal → HttpResponse) : St :=
  pages pageO tmdbO omdbO 1 pages_to_fetch 1

/-- Every sleep event is immediately preceded by a save event; the Boolean
argument tells whether the previous event (before the list) was a save. -/
def pacedAux : Bool → List Ev → Bool
  | _, [] => true
  | prev, e :: rest => (!evIsSleep e || prev) && pacedAux (evIsSaved e) rest

def paced (l : List Ev) : Bool := pacedAux false l

/-- Whether the last event of `l` is a save (`b` when `l` is empty). -/
def endsSaved : Bool → List Ev → Bool
  | b, [] => b
  | _, e :: rest => endsSaved (evIsSaved e) rest

/-- Pages whose 200-decoded `results` entries all carry a `title` key.  (The
save path of the source prints `movie[title]` after writing the file and
before sleeping; a title-less movie would abort there, between the save and
its pacing sleep.) -/
def wfPage (r : HttpResponse) : Bool :=
  if r.status == 200 then
    match getKey r.body ("results") with
    | .ok (.jarr ms) => ms.all (fun m => (getKey m ("title")).isOk)
    | _ => true
  else true

end Tiago

/-! ## Python floats: exact rationals extended with inf and NaN -/

/-- A Python/NumPy float, with the magnitude kept exact as a rational. -/
inductive PyFloat where
  | fin (q : ℚ)
  | pinf
  | ninf
  | nan
deriving DecidableEq, Repr

def digitsToNat (l : List Char) : Nat :=
  l.foldl (fun acc c => acc * 10 + (c.toNat - 48)) 0

/-- The mantissa part of a float literal: `digits`, `digits.digits`,
`digits.` or `.digits`. -/
def parseMantissa (l : List Char) : Option ℚ :=
  let ip := l.takeWhile Char.isDigit
  match l.drop ip.length with
  | [] => if ip.isEmpty then none else some ((digitsToNat ip : ℚ))
  | c :: frac =>
    if c == '.' then
      if frac.all Char.isDigit && !(ip.isEmpty && frac.isEmpty) then
        some ((digitsToNat ip : ℚ) + (digitsToNat frac : ℚ) / ((10 : ℚ) ^ frac.length))
      else none
    else none

/-- The exponent digits after `e`/`E`, with an optional sign. -/
def parseExpPart (l : List Char) : Option Int :=
  match l with
  | [] => none
  | c :: ds =>
    if c == '+' then
      if !ds.isEmpty && ds.all Char.isDigit then some ((digitsToNat ds : Int)) else none
    else if c == '-' then
      if !ds.isEmpty && ds.all Char.isDigit then some (-(digitsToNat ds : Int)) else none
    else if (c :: ds).all Char.isDigit then some ((digitsToNat (c :: ds) : Int))
    else none

/-- Split a float literal at the first `e`/`E`, if any. -/
def splitAtExpChar (l : List Char) : List Char × Option (List Char) :=
  let pre := l.takeWhile (fun c => !(c == 'e' || c == 'E'))
  match l.drop pre.length with
  | [] => (pre, none)
  | _ :: post => (pre, some post)

def lowerEq (l : List Char) (s : String) : Bool := (l.map Char.toLower) == s.toList

/-- Python `float(str)`: strip whitespace, optional sign, then `inf`,
`infinity`, `nan`, or a decimal literal with optional exponent; `none` is a
ValueError.  Magnitudes are exact (no rounding to binary), which is faithful
for everything proved here. -/
def pyFloatChars (l0 : List Char) : Option PyFloat :=
  let l := listStripChars l0
  let sb : Bool × List Char :=
    match l with
    | c :: r => if c == '-' then (true, r) else if c == '+' then (false, r) else (false, l)
    | [] => (false, [])
  let neg := sb.1
  let body := sb.2
  if lowerEq body ("inf") || lowerEq body ("infinity") then
    some (if neg then .ninf else .pinf)
  else if lowerEq body ("nan") then some .nan
  else
    match splitAtExpChar body with
    | (m, eopt) =>
      match parseMantissa m with
      | none => none
      | some q =>
        match eopt with
        | none => some (.fin (if neg then -q else q))
        | some el =>
          match parseExpPart el with
          | none => none
          | some e => some (.fin ((if neg then -q else q) * ((10 : ℚ) ^ e)))

/-- IEEE-style truthiness: only 0.0 is falsy (NaN is truthy in Python). -/
def pfTruthy : PyFloat → Bool
  | .fin q => !(q == 0)
  | _ => true

/-- `x > 0` on floats (false for NaN). -/
def pfGtZero : PyFloat → Bool
  | .fin q => decide (0 < q)
  | .pinf => true
  | _ => false

def pfSub : PyFloat → PyFloat → PyFloat
  | .nan, _ => .nan
  | _, .nan => .nan
  | .fin a, .fin b => .fin (a - b)
  | .fin _, .pinf => .ninf
  | .fin _, .ninf => .pinf
  | .pinf, .fin _ => .pinf
  | .ninf, .fin _ => .ninf
  | .pinf, .pinf => .nan
  | .pinf, .ninf => .pinf
  | .ninf, .pinf => .ninf
  | .ninf, .ninf => .nan

/-- Float division with the NumPy/pandas zero-division behavior:
`x / 0` is `inf` for positive `x`, `-inf` for negative `x`, NaN for `0 / 0`
(signed zeros are not modelled; no claim distinguishes them). -/
def pfDiv : PyFloat → PyFloat → PyFloat
  | .nan, _ => .nan
  | _, .nan => .nan
  | .fin a, .fin b =>
    if b == 0 then (if 0 < a then .pinf else if a < 0 then .ninf else .nan)
    else .fin (a / b)
  | .fin _, .pinf => .fin 0
  | .fin _, .ninf => .fin 0
  | .pinf, .fin b => if b < 0 then .ninf else .pinf
  | .ninf, .fin b => if b < 0 then .pinf else .ninf
  | .pinf, .pinf => .nan
  | .pinf, .ninf => .nan
  | .ninf, .pinf => .nan
  | .ninf, .ninf => .nan

def pfMul : PyFloat → PyFloat → PyFloat
  | .nan, _ => .nan
  | _, .nan => .nan
  | .fin a, .fin b => .fin (a * b)
  | .fin a, .pinf => if 0 < a then .pinf else if a < 0 then .ninf else .nan
  | .fin a, .ninf => if 0 < a then .ninf else if a < 0 then .pinf else .nan
  | .pinf, .fin b => if 0 < b then .pinf else if b < 0 then .ninf else .nan
  | .ninf, .fin b => if 0 < b then .ninf else if b < 0 then .pinf else .nan
  | .pinf, .pinf => .pinf
  | .pinf, .ninf => .ninf
  | .ninf, .pinf => .ninf
  | .ninf, .ninf => .pinf

def isFin : PyFloat → Bool
  | .fin _ => true
  | _ => false

/-! ## simple_cluster_analysis.py -/

namespace SimpleCluster

/-- `convert_to_numeric(value)`: `float(value)`, `None` on failure. -/
def convert_to_numeric (value : String) : Option PyFloat :=
  pyFloatChars value.toList

/-- The ROI contribution of one row inside `analyze_financial_performance`:
the body of `if budget and revenue and budget > 0:` with
`profit = revenue - budget; roi = (profit / budget) * 100`; `none` means the
row contributes nothing (no ROI is computed for it). -/
def rowRoi (budgetS revenueS : String) : Option PyFloat :=
  match convert_to_numeric budgetS, convert_to_numeric revenueS with
  | some budget, some revenue =>
    if pfTruthy budget && pfTruthy revenue && pfGtZero budget then
      some (pfMul (pfDiv (pfSub revenue budget) budget) (.fin 100))
    else none
  | _, _ => none

end SimpleCluster

/-! ## cluster_analysis_script.py -/

namespace ClusterAnalysis

/-- `pd.to_numeric(x, errors=coerce)` on one cell: NaN when unparseable. -/
def to_numeric_coerce (s : String) : PyFloat := (pyFloatChars s.toList).getD .nan

/-- One row of `df[profit] = df[revenue] - df[budget]` in
`load_and_clean_data`. -/
def profit (budgetS revenueS : String) : PyFloat :=
  pfSub (to_numeric_coerce revenueS) (to_numeric_coerce budgetS)

/-- One row of `df[roi] = (df[profit] / df[budget]) * 100` in
`load_and_clean_data` (elementwise pandas arithmetic: zero division yields
inf, -inf or NaN, it does not raise). -/
def roi (budgetS revenueS : String) : PyFloat :=
  pfMul (pfDiv (profit budgetS revenueS) (to_numeric_coerce budgetS)) (.fin 100)

/-- The genre-list decorations stripped by `extract_genres`:
left bracket + quote, quote + right bracket, and the quoted-comma separator. -/
def lbrkChars : List Char := ['[', quoteChar]

def rbrkChars : List Char := [quoteChar, ']']

def gsepChars : List Char := [quoteChar, ',', ' ', quoteChar]

def lbrkStr : String := lbrkChars.asString

def rbrkStr : String := rbrkChars.asString

def gsepStr : String := gsepChars.asString

/-- `extract_genres(genre_str)` from `analyze_genres`: `[]` for NaN (`none`
input), otherwise strip the bracket/quote decorations, split on the
quoted-comma separator and strip each piece.  The `try/except` of the source
is dead code — every operation in the body is total on strings. -/
def extract_genres (genre_str : Option String) : List String :=
  match genre_str with
  | none => []
  | some s =>
    let genres := pySplit (pyReplace (pyReplace s lbrkStr ("")) rbrkStr ("")) gsepStr
    genres.map pyStrip

/-- The concrete genre string of the specification scenario:
bracket-quote, Action, quoted-comma, Drama, quote-bracket. -/
def actionDramaStr : String :=
  (lbrkChars ++ ("Action").toList ++ gsepChars ++ ("Drama").toList ++ rbrkChars).asString

end ClusterAnalysis

/-! ## Concrete scenario data used by individual claims -/

/-- C1 resolver oracle: HTTP 200 with one candidate of id 278 for any imdb id. -/
def c1FindOracle : String → HttpResponse :=
  fun _ => ⟨200, .jobj [(("movie_results"), .jarr [.jobj [(("id"), .jstr ("278"))]])]⟩

/-- C1 detail oracle: HTTP 200 with a truthy detail payload. -/
def c1DetailOracle : JsonVal → HttpResponse :=
  fun _ => ⟨200, .jobj [(("id"), .jstr ("278")), (("imdb_id"), .jstr ("tt0111161"))]⟩

/-- C3 counterexample resolver oracle: a zero-candidate (NotFound) response for
the first id, a normal one-candidate response for every other id. -/
def c3FindOracle : String → HttpResponse :=
  fun s =>
    if s == ("tt0000001") then ⟨200, .jobj [(("movie_results"), .jarr [])]⟩
    else ⟨200, .jobj [(("movie_results"), .jarr [.jobj [(("id"), .jnum 278)]])]⟩

def c3DetailOracle : JsonVal → HttpResponse :=
  fun _ => ⟨200, .jobj [(("id"), .jnum 278)]⟩

/-- C3 witness oracle: every lookup is HTTP 200 with zero candidates. -/
def c3wOracle : String → HttpResponse :=
  fun _ => ⟨200, .jobj [(("movie_results"), .jarr [])]⟩

/-- C4 counterexample movie: a complete record on page 2. -/
def c4Movie : JsonVal :=
  .jobj [(("id"), .jnum 278), (("title"), .jstr ("The Shawshank Redemption"))]

/-- C4 counterexample page oracle: page 1 fails with HTTP 500, page 2 succeeds
with one movie, later pages succeed with empty results. -/
def c4PageO : Nat → HttpResponse :=
  fun p =>
    if p == 1 then ⟨500, .jnull⟩
    else if p == 2 then ⟨200, .jobj [(("results"), .jarr [c4Movie])]⟩
    else ⟨200, .jobj [(("results"), .jarr [])]⟩

def c4TmdbO : JsonVal → HttpResponse :=
  fun _ => ⟨200, .jobj [(("imdb_id"), .jstr ("tt0111161"))]⟩

def c4OmdbO : JsonVal → HttpResponse :=
  fun _ => ⟨200, .jobj [(("Response"), .jstr ("True"))]⟩

/-- C4 witness page oracle: every page request fails. -/
def c4wPageO : Nat → HttpResponse := fun _ => ⟨500, .jnull⟩

def c4wDetailO : JsonVal → HttpResponse := fun _ => ⟨200, .jnull⟩

/-- C6 witness oracle: id `a` succeeds, everything else gets HTTP 500. -/
def c6Oracle : String → HttpResponse :=
  fun s =>
    if s == ("a") then ⟨200, .jobj [(("Title"), .jstr ("A"))]⟩
    else ⟨500, .jnull⟩

/-- C9 witness oracles: every page returns one complete movie, and both detail
fetchers succeed. -/
def c9wMovie : JsonVal := .jobj [(("id"), .jnum 278), (("title"), .jstr ("X"))]

def c9wPageO : Nat → HttpResponse :=
  fun _ => ⟨200, .jobj [(("results"), .jarr [c9wMovie])]⟩

def c9wTmdbO : JsonVal → HttpResponse :=
  fun _ => ⟨200, .jobj [(("imdb_id"), .jstr ("tt0111161"))]⟩

def c9wOmdbO : JsonVal → HttpResponse :=
  fun _ => ⟨200, .jobj [(("Response"), .jstr ("True"))]⟩

/-- C10 witness oracle: HTTP 200 carrying the OMDb not-found payload. -/
def c10wOracle : String → HttpResponse :=
  fun _ => ⟨200, .jobj [(("Response"), .jstr ("False"))]⟩

/-! # Generic list lemmas -/

theorem takeWhile_all_append {α : Type _} (p : α → Bool) (pre : List α) (x : α)
    (post : List α) (hpre : ∀ y ∈ pre, p y = true) (hx : p x = false) :
    (pre ++ x :: post).takeWhile p = pre := by
  induction pre with
  | nil => simp [List.takeWhile_cons, hx]
  | cons a tl ih =>
    have ha : p a = true := hpre a (List.mem_cons_self a tl)
    have htl : ∀ y ∈ tl, p y = true := fun y hy => hpre y (List.mem_cons_of_mem a hy)
    simp [List.takeWhile_cons, ha, ih htl]

theorem take_len_succ_append {α : Type _} (pre : List α) (x : α) (post : List α) :
    (pre ++ x :: post).take (pre.length + 1) = pre ++ [x] := by
  induction pre with
  | nil => simp
  | cons a tl ih => simpa using ih

/-! # The enumerated-list source -/

/-- The identifier source yields the stripped lines with blank lines removed,
in input order. -/
theorem sourceIds_map_filter (lines : List String) :
    sourceIds lines = (lines.map pyStrip).filter (fun s => !(s == "")) := by
  induction lines with
  | nil => rfl
  | cons a tl ih =>
    simp only [sourceIds] at ih
    cases hpa : pyStrip a == "" with
    | false => simp [sourceIds, List.filter_cons, hpa, ih]
    | true => simp [sourceIds, List.filter_cons, hpa, ih]

/-! # omdb_to_csv.py: run characterization -/

/-- The data rows of a run are exactly one row per item of the longest prefix
of ok items, in input order. -/
theorem omdbLoop_rows (oracle : String → HttpResponse) (ids : List String) (it : Nat) :
    (OmdbToCsv.loop oracle ids it).rows
      = (ids.takeWhile (fun i => OmdbToCsv.okResp (oracle i))).map (OmdbToCsv.rowOf oracle) := by
  induction ids generalizing it with
  | nil => rfl
  | cons a rest ih =>
    cases h200 : (oracle a).status == 200 with
    | false =>
      simp [OmdbToCsv.loop, OmdbToCsv.get_movie_details_omdb, h200, List.takeWhile_cons,
        OmdbToCsv.okResp]
    | true =>
      cases ht : truthyJson (oracle a).body with
      | false =>
        simp [OmdbToCsv.loop, OmdbToCsv.get_movie_details_omdb, h200, ht,
          List.takeWhile_cons, OmdbToCsv.okResp]
      | true =>
        simp [OmdbToCsv.loop, OmdbToCsv.get_movie_details_omdb, h200, ht,
          List.takeWhile_cons, OmdbToCsv.okResp, OmdbToCsv.rowOf, ih]

/-- The ids requested upstream are the ok prefix plus the first failing item,
when there is one. -/
theorem omdbLoop_requested (oracle : String → HttpResponse) (ids : List String) (it : Nat) :
    (OmdbToCsv.loop oracle ids it).requested
      = ids.take ((ids.takeWhile (fun i => OmdbToCsv.okResp (oracle i))).length + 1) := by
  induction ids generalizing it with
  | nil => rfl
  | cons a rest ih =>
    cases h200 : (oracle a).status == 200 with
    | false =>
      simp [OmdbToCsv.loop, OmdbToCsv.get_movie_details_omdb, h200, List.takeWhile_cons,
        OmdbToCsv.okResp]
    | true =>
      cases ht : truthyJson (oracle a).body with
      | false =>
        simp [OmdbToCsv.loop, OmdbToCsv.get_movie_details_omdb, h200, ht,
          List.takeWhile_cons, OmdbToCsv.okResp]
      | true =>
        simp [OmdbToCsv.loop, OmdbToCsv.get_movie_details_omdb, h200, ht,
          List.takeWhile_cons, OmdbToCsv.okResp, ih]

/-! # tmdb_id_from_imdb.py: run characterization -/

/-- The rows of a run are one row per resolved item of the longest prefix the
loop traverses (up to the first transport error or exception), skipping
NotFound items, in input order. -/
theorem tmdbIdLoop_rows (oracle : String → HttpResponse) (ids : List String) (it : Nat) :
    (TmdbIdFromImdb.loop oracle ids it).rows
      = (((ids.takeWhile (TmdbIdFromImdb.keepGo oracle)).filter
          (TmdbIdFromImdb.writesRow oracle)).map (fun i => (i, TmdbIdFromImdb.rowVal oracle i))) := by
  induction ids generalizing it with
  | nil => rfl
  | cons a rest ih =>
    cases hres : TmdbIdFromImdb.get_movie_id_from_imdb (oracle a) with
    | error e =>
      simp [TmdbIdFromImdb.loop, hres, List.takeWhile_cons, TmdbIdFromImdb.keepGo]
    | ok r =>
      cases r with
      | pynone =>
        simp [TmdbIdFromImdb.loop, hres, List.takeWhile_cons, TmdbIdFromImdb.keepGo]
      | pyval v =>
        cases hemp : isEmptyStr v with
        | true =>
          simp [TmdbIdFromImdb.loop, hres, hemp, List.takeWhile_cons, List.filter_cons,
            TmdbIdFromImdb.keepGo, TmdbIdFromImdb.writesRow, ih]
        | false =>
          simp [TmdbIdFromImdb.loop, hres, hemp, List.takeWhile_cons, List.filter_cons,
            TmdbIdFromImdb.keepGo, TmdbIdFromImdb.writesRow, TmdbIdFromImdb.rowVal, ih]

/-! # Claim theorems -/

/-- C6: in the enumerated OMDb variant (abort policy), a non-200 response
while processing item `x` terminates the run at `x`: the rows are exactly one
row per item before `x` (all of which remain in the output), no row is written
for `x`, and no request is issued for any item after `x`. -/
theorem c6_abort_policy (oracle : String → HttpResponse) (lines : List String) (it : Nat)
    (pre : List String) (x : String) (post : List String)
    (hsrc : sourceIds lines = pre ++ x :: post)
    (hpre : ∀ y ∈ pre, OmdbToCsv.okResp (oracle y) = true)
    (hx : (oracle x).status ≠ 200) :
    (OmdbToCsv.main oracle lines it).rows = pre.map (OmdbToCsv.rowOf oracle) ∧
    (OmdbToCsv.main oracle lines it).requested = pre ++ [x] := by
  have hb : ((oracle x).status == 200) = false := beq_eq_false_iff_ne.mpr hx
  have hxf : OmdbToCsv.okResp (oracle x) = false := by
    simp [OmdbToCsv.okResp, hb]
  have htw : (sourceIds lines).takeWhile (fun i => OmdbToCsv.okResp (oracle i)) = pre := by
    rw [hsrc]
    exact takeWhile_all_append _ pre x post hpre hxf
  constructor
  · show (OmdbToCsv.loop oracle (sourceIds lines) it).rows = _
    rw [omdbLoop_rows, htw]
  · show (OmdbToCsv.loop oracle (sourceIds lines) it).requested = _
    rw [omdbLoop_requested, htw, hsrc, take_len_succ_append]

/-- C6 witness: with ids a, b, c where a succeeds and b gets HTTP 500, the run
writes exactly the row for a and requests exactly a then b. -/
theorem c6_abort_policy_witness :
    (OmdbToCsv.main c6Oracle [("a"), ("b"), ("c")] 0).rows
      = [("a")].map (OmdbToCsv.rowOf c6Oracle) ∧
    (OmdbToCsv.main c6Oracle [("a"), ("b"), ("c")] 0).requested = [("a")] ++ [("b")] :=
  c6_abort_policy c6Oracle [("a"), ("b"), ("c")] 0 [("a")] ("b") [("c")]
    (by decide) (by decide) (by decide)

/-- C7: the enumerated-list identifier source yields exactly the input lines
after stripping, blank lines removed, in input order; and each of the two
enumerated-list runs writes exactly one data row per successfully processed
item, in that same input order (for omdb_to_csv the successfully processed
items are the longest ok prefix; for tmdb_id_from_imdb they are the resolved
items of the traversed prefix). -/
theorem c7_source_and_row_order (o1 o2 : String → HttpResponse) (lines : List String) (it : Nat) :
    sourceIds lines = (lines.map pyStrip).filter (fun s => !(s == "")) ∧
    (OmdbToCsv.main o1 lines it).rows
      = ((sourceIds lines).takeWhile (fun i => OmdbToCsv.okResp (o1 i))).map
          (OmdbToCsv.rowOf o1) ∧
    (TmdbIdFromImdb.main o2 lines it).rows
      = (((sourceIds lines).takeWhile (TmdbIdFromImdb.keepGo o2)).filter
          (TmdbIdFromImdb.writesRow o2)).map (fun i => (i, TmdbIdFromImdb.rowVal o2 i)) :=
  ⟨sourceIds_map_filter lines, omdbLoop_rows o1 (sourceIds lines) it,
    tmdbIdLoop_rows o2 (sourceIds lines) it⟩

/-- C8: the enumerated OMDb variant is deterministic — with the same input
lines and the same upstream responses, the serialized tabular stdout is
byte-identical regardless of the initial value of the global iteration counter
(which only reaches the stderr diagnostics). -/
theorem c8_determinism (oracle : String → HttpResponse) (lines : List String) (k1 k2 : Nat) :
    OmdbToCsv.stdoutStr oracle lines k1 = OmdbToCsv.stdoutStr oracle lines k2 := by
  unfold OmdbToCsv.stdoutStr OmdbToCsv.main
  rw [omdbLoop_rows, omdbLoop_rows]

/-- C10: the enumerated OMDb variant decides abort-vs-write by the truthiness
of the decoded body, not an error taxonomy: an HTTP 200 response carrying the
OMDb not-found payload counts as ok (and is written as a normal row), an HTTP
200 response with a falsy decoded body is not ok (it ends the run), and the
run never skips — every requested item gets its row except possibly the last
requested one, where the run ended. -/
theorem c10_truthiness_policy (oracle : String → HttpResponse) (lines : List String) (it : Nat) :
    OmdbToCsv.okResp ⟨200, .jobj [(("Response"), .jstr ("False"))]⟩ = true ∧
    (∀ b : JsonVal, truthyJson b = false → OmdbToCsv.okResp ⟨200, b⟩ = false) ∧
    ((OmdbToCsv.main oracle lines it).rows
        = (OmdbToCsv.main oracle lines it).requested.map (OmdbToCsv.rowOf oracle) ∨
      (OmdbToCsv.main oracle lines it).rows
        = (OmdbToCsv.main oracle lines it).requested.dropLast.map (OmdbToCsv.rowOf oracle)) := by
  refine ⟨by decide, fun b hb => by simp [OmdbToCsv.okResp, hb], ?_⟩
  have hrows := omdbLoop_rows oracle (sourceIds lines) it
  have hreq := omdbLoop_requested oracle (sourceIds lines) it
  set ids := sourceIds lines with hids0
  set p := fun i => OmdbToCsv.okResp (oracle i) with hp
  set tw := ids.takeWhile p with htw
  by_cases hlen : tw.length = ids.length
  · left
    have heq : tw = ids := (List.takeWhile_prefix p).eq_of_length hlen
    show (OmdbToCsv.loop oracle ids it).rows
      = (OmdbToCsv.loop oracle ids it).requested.map (OmdbToCsv.rowOf oracle)
    rw [hrows, hreq, heq, List.take_of_length_le (by omega)]
  · right
    have hsplit : tw ++ ids.dropWhile p = ids := by
      rw [htw]
      exact List.takeWhile_append_dropWhile p ids
    cases hdw : ids.dropWhile p with
    | nil =>
      exfalso
      apply hlen
      rw [← hsplit, hdw]
      simp
    | cons d ds =>
      rw [hdw] at hsplit
      show (OmdbToCsv.loop oracle ids it).rows
        = ((OmdbToCsv.loop oracle ids it).requested.dropLast).map (OmdbToCsv.rowOf oracle)
      rw [hrows, hreq, ← hsplit, take_len_succ_append, List.dropLast_concat]

/-- C10 witness: a falsy decoded body under HTTP 200 is not ok (the run aborts
there). -/
theorem c10_truthiness_policy_witness :
    OmdbToCsv.okResp ⟨200, .jnull⟩ = false :=
  (c10_truthiness_policy c10wOracle [("tt0000001")] 0).2.1 .jnull (by decide)

/-- C3 counterexample: in the tmdb_to_csv.py variant (which also performs
resolution on an enumerated list), a transport-successful zero-candidate
(NotFound) lookup for the first id raises IndexError and aborts the run: no
row is written, the second id is never requested, and the run does not
proceed — refuting skip-and-continue for this variant. -/
theorem c3_notfound_counterexample :
    TmdbToCsv.main c3FindOracle c3DetailOracle [("tt0000001"), ("tt0000002")] 0
      = ⟨[], [("tt0000001")], some .indexError, 1⟩ := by
  decide

/-- C3 (amended): in the tmdb_id_from_imdb.py variant, a transport-successful
zero-candidate (NotFound) lookup makes the run skip the item and proceed: the
rows, the pending exception and the rest of the processing are exactly those
of the run on the remaining ids, and no row is written for the NotFound
item (it is merely recorded as requested). -/
theorem c3_notfound_skip_continue (oracle : String → HttpResponse) (id : String)
    (rest : List String) (it : Nat)
    (h200 : (oracle id).status = 200)
    (hempty : getKey (oracle id).body ("movie_results") = .ok (.jarr [])) :
    (TmdbIdFromImdb.loop oracle (id :: rest) it).rows
      = (TmdbIdFromImdb.loop oracle rest (it + 1)).rows ∧
    (TmdbIdFromImdb.loop oracle (id :: rest) it).requested
      = id :: (TmdbIdFromImdb.loop oracle rest (it + 1)).requested ∧
    (TmdbIdFromImdb.loop oracle (id :: rest) it).exc
      = (TmdbIdFromImdb.loop oracle rest (it + 1)).exc := by
  have hres : TmdbIdFromImdb.get_movie_id_from_imdb (oracle id) = .ok (.pyval (.jstr "")) := by
    simp [TmdbIdFromImdb.get_movie_id_from_imdb, h200, hempty]
  refine ⟨?_, ?_, ?_⟩ <;> simp [TmdbIdFromImdb.loop, hres, isEmptyStr]

/-- C3 witness: a NotFound response for the first of two ids leaves the rows,
exception and continuation identical to the run on the second id alone. -/
theorem c3_notfound_skip_continue_witness :
    (TmdbIdFromImdb.loop c3wOracle (("tt0000001") :: [("tt0000002")]) 0).rows
      = (TmdbIdFromImdb.loop c3wOracle [("tt0000002")] (0 + 1)).rows ∧
    (TmdbIdFromImdb.loop c3wOracle (("tt0000001") :: [("tt0000002")]) 0).requested
      = ("tt0000001") :: (TmdbIdFromImdb.loop c3wOracle [("tt0000002")] (0 + 1)).requested ∧
    (TmdbIdFromImdb.loop c3wOracle (("tt0000001") :: [("tt0000002")]) 0).exc
      = (TmdbIdFromImdb.loop c3wOracle [("tt0000002")] (0 + 1)).exc :=
  c3_notfound_skip_continue c3wOracle ("tt0000001") [("tt0000002")] 0 (by decide) (by rfl)

/-- C1: on input line tt0111161 with a one-candidate resolver response of id
278 and successful detail responses, tmdb_to_csv.py writes no data row and
terminates with NameError — the row write references the unbound name
`id_value` (the loop variable is `imdb_id_value`), so the scenario's intended
single merged row never appears.  (`iterations` is 2: one resolve plus one
detail fetch.) -/
theorem c1_namerror_aborts_run :
    TmdbToCsv.main c1FindOracle c1DetailOracle [("tt0111161")] 0
      = ⟨[], [("tt0111161")], some .nameError, 2⟩ := by
  decide

/-- C4 counterexample: with page 1 failing (HTTP 500) and page 2 carrying one
complete movie, the run still requests page 2 and saves that movie — a failed
page request does not stop the identifier source. -/
theorem c4_page_failure_counterexample :
    (Tiago.run c4PageO c4TmdbO c4OmdbO).trace.countP (Tiago.evIsPageReq 2) = 1 ∧
    (Tiago.run c4PageO c4TmdbO c4OmdbO).trace.countP Tiago.evIsSaved = 1 := by
  constructor <;> decide

/-- C4 (amended): a failed page request (non-200 for page `p`) skips only that
page: the run prints the page error and continues with page `p + 1` unchanged
(same counter, same continuation), rather than stopping the source. -/
theorem c4_page_failure_skips_page (pageO : Nat → HttpResponse)
    (tmdbO omdbO : JsonVal → HttpResponse) (p rem c : Nat)
    (h : (pageO p).status ≠ 200) :
    (Tiago.pages pageO tmdbO omdbO p (rem + 1) c).trace
      = .pageReq p :: .pageErr p :: (Tiago.pages pageO tmdbO omdbO (p + 1) rem c).trace ∧
    (Tiago.pages pageO tmdbO omdbO p (rem + 1) c).counter
      = (Tiago.pages pageO tmdbO omdbO (p + 1) rem c).counter ∧
    (Tiago.pages pageO tmdbO omdbO p (rem + 1) c).exc
      = (Tiago.pages pageO tmdbO omdbO (p + 1) rem c).exc := by
  have hb : ((pageO p).status == 200) = false := beq_eq_false_iff_ne.mpr h
  refine ⟨?_, ?_, ?_⟩ <;> simp [Tiago.pages, hb]

/-- C4 witness: with every page failing, page 1 of a 100-page run reduces to
the error events followed by the 99-page run from page 2. -/
theorem c4_page_failure_skips_page_witness :
    (Tiago.pages c4wPageO c4wDetailO c4wDetailO 1 (99 + 1) 1).trace
      = .pageReq 1 :: .pageErr 1 :: (Tiago.pages c4wPageO c4wDetailO c4wDetailO (1 + 1) 99 1).trace ∧
    (Tiago.pages c4wPageO c4wDetailO c4wDetailO 1 (99 + 1) 1).counter
      = (Tiago.pages c4wPageO c4wDetailO c4wDetailO (1 + 1) 99 1).counter ∧
    (Tiago.pages c4wPageO c4wDetailO c4wDetailO 1 (99 + 1) 1).exc
      = (Tiago.pages c4wPageO c4wDetailO c4wDetailO (1 + 1) 99 1).exc :=
  c4_page_failure_skips_page c4wPageO c4wDetailO c4wDetailO 1 99 1 (by decide)

/-! # tiago.py: pacing lemmas -/

theorem pacedAux_append (b : Bool) (l1 l2 : List Tiago.Ev) :
    Tiago.pacedAux b (l1 ++ l2)
      = (Tiago.pacedAux b l1 && Tiago.pacedAux (Tiago.endsSaved b l1) l2) := by
  induction l1 generalizing b with
  | nil => simp [Tiago.pacedAux, Tiago.endsSaved]
  | cons e tl ih => simp [Tiago.pacedAux, Tiago.endsSaved, ih, Bool.and_assoc]

theorem endsSaved_append (b : Bool) (l1 l2 : List Tiago.Ev) :
    Tiago.endsSaved b (l1 ++ l2) = Tiago.endsSaved (Tiago.endsSaved b l1) l2 := by
  induction l1 generalizing b with
  | nil => simp [Tiago.endsSaved]
  | cons e tl ih => simp [Tiago.endsSaved, ih]


theorem processMovie_paced (tmdbO omdbO : JsonVal → HttpResponse) (m : JsonVal) (c : Nat)
    (ht : (getKey m ("title")).isOk = true) :
    ((Tiago.processMovie tmdbO omdbO m c).1.countP Tiago.evIsSleep
      = (Tiago.processMovie tmdbO omdbO m c).1.countP Tiago.evIsSaved) ∧
    Tiago.pacedAux false (Tiago.processMovie tmdbO omdbO m c).1 = true ∧
    ((Tiago.processMovie tmdbO omdbO m c).2.2 = none →
      Tiago.endsSaved false (Tiago.processMovie tmdbO omdbO m c).1 = false) := by
  refine ⟨?_, ?_, ?_⟩ <;>
  · unfold Tiago.processMovie
    repeat' (split <;> try simp_all only [Except.isOk, Except.toBool, Bool.false_eq_true])
    all_goals
      simp [List.countP_cons, List.countP_nil, Tiago.pacedAux, Tiago.endsSaved,
        Tiago.evIsSleep, Tiago.evIsSaved]

/-- Pacing composed over one page's movie list. -/
theorem tiagoMovies_paced (tmdbO omdbO : JsonVal → HttpResponse) (ms : List JsonVal) (c : Nat)
    (hts : ∀ m ∈ ms, (getKey m ("title")).isOk = true) :
    ((Tiago.movies tmdbO omdbO ms c).trace.countP Tiago.evIsSleep
      = (Tiago.movies tmdbO omdbO ms c).trace.countP Tiago.evIsSaved) ∧
    Tiago.pacedAux false (Tiago.movies tmdbO omdbO ms c).trace = true ∧
    ((Tiago.movies tmdbO omdbO ms c).exc = none →
      Tiago.endsSaved false (Tiago.movies tmdbO omdbO ms c).trace = false) := by
  induction ms generalizing c with
  | nil => simp [Tiago.movies, List.countP_nil, Tiago.pacedAux, Tiago.endsSaved]
  | cons m ms ih =>
    have hm := processMovie_paced tmdbO omdbO m c (hts m (List.mem_cons_self m ms))
    have hms : ∀ x ∈ ms, (getKey x ("title")).isOk = true :=
      fun x hx => hts x (List.mem_cons_of_mem m hx)
    cases hpm : Tiago.processMovie tmdbO omdbO m c with
    | mk evs rest =>
      cases rest with
      | mk c1 err =>
        rw [hpm] at hm
        simp only [Prod.fst, Prod.snd] at hm
        cases err with
        | some e =>
          refine ⟨?_, ?_, ?_⟩ <;> simp [Tiago.movies, hpm]
          · exact hm.1
          · exact hm.2.1
        | none =>
          have hihv := ih c1 hms
          refine ⟨?_, ?_, ?_⟩ <;> simp [Tiago.movies, hpm]
          · rw [hm.1, hihv.1]
          · rw [pacedAux_append, hm.2.1, hm.2.2 rfl, hihv.2.1]
            simp
          · intro hexc
            rw [endsSaved_append, hm.2.2 rfl]
            exact hihv.2.2 hexc

/-- Pacing composed over the page loop. -/
theorem tiagoPages_paced (pageO : Nat → HttpResponse) (tmdbO omdbO : JsonVal → HttpResponse)
    (hwf : ∀ q, Tiago.wfPage (pageO q) = true) (p rem c : Nat) :
    ((Tiago.pages pageO tmdbO omdbO p rem c).trace.countP Tiago.evIsSleep
      = (Tiago.pages pageO tmdbO omdbO p rem c).trace.countP Tiago.evIsSaved) ∧
    Tiago.pacedAux false (Tiago.pages pageO tmdbO omdbO p rem c).trace = true := by
  induction rem generalizing p c with
  | zero => simp [Tiago.pages, Tiago.pacedAux]
  | succ rem ih =>
    cases hst : (pageO p).status == 200 with
    | false =>
      have hih := ih (p + 1) c
      refine ⟨?_, ?_⟩ <;>
        simp [Tiago.pages, hst, Tiago.pacedAux, Tiago.evIsSleep, Tiago.evIsSaved,
          List.countP_cons]
      · exact hih.1
      · exact hih.2
    | true =>
      cases hres : getKey (pageO p).body ("results") with
      | error e =>
        refine ⟨?_, ?_⟩ <;>
          simp [Tiago.pages, hst, hres, Tiago.pacedAux, Tiago.evIsSleep, Tiago.evIsSaved,
            List.countP_cons]
      | ok v =>
        cases v
        case jarr ms =>
          have hw := hwf p
          rw [Tiago.wfPage] at hw
          simp only [hst, if_true, hres] at hw
          have hts : ∀ m ∈ ms, (getKey m ("title")).isOk = true := List.all_eq_true.mp hw
          have hmv := tiagoMovies_paced tmdbO omdbO ms c hts
          cases hexc : (Tiago.movies tmdbO omdbO ms c).exc with
          | some e =>
            refine ⟨?_, ?_⟩ <;>
              simp [Tiago.pages, hst, hres, hexc, Tiago.pacedAux, Tiago.evIsSleep,
                Tiago.evIsSaved, List.countP_cons]
            · exact hmv.1
            · exact hmv.2.1
          | none =>
            have hih := ih (p + 1) (Tiago.movies tmdbO omdbO ms c).counter
            refine ⟨?_, ?_⟩ <;>
              simp [Tiago.pages, hst, hres, hexc, Tiago.pacedAux, Tiago.evIsSleep,
                Tiago.evIsSaved, List.countP_cons, List.countP_append]
            · rw [hmv.1, hih.1]
            · rw [pacedAux_append, hmv.2.1, hmv.2.2 hexc, hih.2]
              simp
        all_goals
          refine ⟨?_, ?_⟩ <;>
            simp [Tiago.pages, hst, hres, Tiago.pacedAux, Tiago.evIsSleep, Tiago.evIsSaved,
              List.countP_cons]

/-- C9: in the paginated variant, the pacing delay happens exactly once per
successfully written item and on no other path: over any run whose pages carry
title-keyed movies, the number of sleep events equals the number of save
events, and every sleep is immediately preceded by its save (so skip paths,
which save nothing, never sleep, and each save is followed by exactly one
sleep). -/
theorem c9_pacing (pageO : Nat → HttpResponse) (tmdbO omdbO : JsonVal → HttpResponse)
    (hwf : ∀ q, Tiago.wfPage (pageO q) = true) :
    ((Tiago.run pageO tmdbO omdbO).trace.countP Tiago.evIsSleep
      = (Tiago.run pageO tmdbO omdbO).trace.countP Tiago.evIsSaved) ∧
    Tiago.paced (Tiago.run pageO tmdbO omdbO).trace = true :=
  tiagoPages_paced pageO tmdbO omdbO hwf 1 Tiago.pages_to_fetch 1

/-- C9 witness: the pacing property at a concrete run where every page yields
one complete movie. -/
theorem c9_pacing_witness :
    ((Tiago.run c9wPageO c9wTmdbO c9wOmdbO).trace.countP Tiago.evIsSleep
      = (Tiago.run c9wPageO c9wTmdbO c9wOmdbO).trace.countP Tiago.evIsSaved) ∧
    Tiago.paced (Tiago.run c9wPageO c9wTmdbO c9wOmdbO).trace = true :=
  c9_pacing c9wPageO c9wTmdbO c9wOmdbO (fun _ => by rfl)

/-! # extract_genres: behaviour away from the encoded form -/

theorem listReplaceF_no_occ (old new : List Char) (fuel : Nat) :
    ∀ l : List Char, l.length ≤ fuel → hasOcc old l = false →
      listReplaceF old new fuel l = l := by
  induction fuel with
  | zero =>
    intro l hl _
    cases l with
    | nil => rfl
    | cons c r => simp at hl
  | succ fuel ih =>
    intro l hl hocc
    cases l with
    | nil => rfl
    | cons c r =>
      simp only [hasOcc, Bool.or_eq_false_iff] at hocc
      rw [listReplaceF, if_neg (by simp [hocc.1]), ih r (by simp at hl; omega) hocc.2]

theorem listSplitF_no_occ (sep : List Char) (fuel : Nat) :
    ∀ l : List Char, l.length ≤ fuel → hasOcc sep l = false →
      listSplitF sep fuel l = [l] := by
  induction fuel with
  | zero =>
    intro l hl _
    cases l with
    | nil => rfl
    | cons c r => simp at hl
  | succ fuel ih =>
    intro l hl hocc
    cases l with
    | nil => rfl
    | cons c r =>
      simp only [hasOcc, Bool.or_eq_false_iff] at hocc
      rw [listSplitF, if_neg (by simp [hocc.1]), ih r (by simp at hl; omega) hocc.2]

theorem pyReplace_no_occ (s old new : String)
    (h : hasOcc old.toList s.toList = false) : pyReplace s old new = s := by
  unfold pyReplace listReplace
  rw [listReplaceF_no_occ old.toList new.toList s.toList.length s.toList le_rfl h]
  exact String.asString_toList s

theorem pySplit_no_occ (s sep : String)
    (h : hasOcc sep.toList s.toList = false) : pySplit s sep = [s] := by
  unfold pySplit
  rw [listSplitF_no_occ sep.toList s.toList.length s.toList le_rfl h]
  rfl

/-- Genre strings carrying none of the decorations pass through the string
surgery untouched: the result is the singleton of the stripped input. -/
theorem extract_genres_no_decor (s : String)
    (h1 : hasOcc ClusterAnalysis.lbrkChars s.toList = false)
    (h2 : hasOcc ClusterAnalysis.rbrkChars s.toList = false)
    (h3 : hasOcc ClusterAnalysis.gsepChars s.toList = false) :
    ClusterAnalysis.extract_genres (some s) = [pyStrip s] := by
  simp only [ClusterAnalysis.extract_genres]
  rw [pyReplace_no_occ s ClusterAnalysis.lbrkStr ("") h1,
    pyReplace_no_occ s ClusterAnalysis.rbrkStr ("") h2,
    pySplit_no_occ s ClusterAnalysis.gsepStr h3]
  rfl

/-- C2 counterexample: the empty genre string does not normalize to the empty
sequence — Python `p.split(sep)` on an empty `p` yields one empty piece, so the
function returns the singleton list of an empty string. -/
theorem c2_empty_genres_counterexample :
    ClusterAnalysis.extract_genres (some ("")) = [("")] ∧
    (ClusterAnalysis.extract_genres (some ("")) == ([] : List String)) = false := by decide

/-- C2 (amended): the encoded form normalizes as specified — the decorated
Action/Drama string yields the ordered pair of genre names and NaN yields the
empty sequence, and the function is total (never an error) — but empty or
undecorated unparseable text yields the singleton of its stripped self, not
the empty sequence. -/
theorem c2_extract_genres :
    ClusterAnalysis.extract_genres (some ClusterAnalysis.actionDramaStr)
      = [("Action"), ("Drama")] ∧
    ClusterAnalysis.extract_genres none = [] ∧
    ClusterAnalysis.extract_genres (some ("")) = [("")] ∧
    (∀ s : String, hasOcc ClusterAnalysis.lbrkChars s.toList = false →
      hasOcc ClusterAnalysis.rbrkChars s.toList = false →
      hasOcc ClusterAnalysis.gsepChars s.toList = false →
      ClusterAnalysis.extract_genres (some s) = [pyStrip s]) :=
  ⟨by decide, rfl, by decide, fun s h1 h2 h3 => extract_genres_no_decor s h1 h2 h3⟩

/-- C2 witness: undecorated text maps to the singleton of itself. -/
theorem c2_extract_genres_witness :
    ClusterAnalysis.extract_genres (some ("garbage")) = [pyStrip ("garbage")] :=
  c2_extract_genres.2.2.2 ("garbage") (by decide) (by decide) (by decide)

/-! # ROI at zero budget -/

theorem to_numeric_coerce_zero : ClusterAnalysis.to_numeric_coerce ("0") = PyFloat.fin 0 := by
  decide

theorem to_numeric_coerce_hundred :
    ClusterAnalysis.to_numeric_coerce ("100") = PyFloat.fin 100 := by
  decide

/-- C5 counterexample: cluster_analysis_script.py computes the row ROI as
`(revenue - budget) / budget * 100` with pandas elementwise arithmetic, so a
zero budget with revenue 100 yields positive infinity — not an absent value. -/
theorem c5_zero_budget_inf_counterexample :
    ClusterAnalysis.roi ("0") ("100") = PyFloat.pinf := by
  rw [ClusterAnalysis.roi, ClusterAnalysis.profit, to_numeric_coerce_zero,
    to_numeric_coerce_hundred]
  norm_num [pfSub, pfDiv, pfMul, beq_iff_eq]

/-- C5 (amended): when the budget cell parses to zero or fails to parse, the
simple_cluster_analysis script reports no ROI for the record (absent, never an
exception, whatever the revenue), while the cluster_analysis_script computes a
non-finite ROI (inf, -inf or NaN) for it — also without raising — instead of
leaving it absent. -/
theorem c5_zero_budget_roi (b r : String)
    (hb : SimpleCluster.convert_to_numeric b = some (PyFloat.fin 0) ∨
      SimpleCluster.convert_to_numeric b = none) :
    SimpleCluster.rowRoi b r = none ∧ isFin (ClusterAnalysis.roi b r) = false := by
  constructor
  · unfold SimpleCluster.rowRoi
    rcases hb with hb | hb
    · rw [hb]
      cases hr : SimpleCluster.convert_to_numeric r with
      | none => rfl
      | some rv => simp [pfTruthy]
    · rw [hb]
  · have hcoerce : ClusterAnalysis.to_numeric_coerce b = PyFloat.fin 0 ∨
        ClusterAnalysis.to_numeric_coerce b = PyFloat.nan := by
      unfold ClusterAnalysis.to_numeric_coerce
      unfold SimpleCluster.convert_to_numeric at hb
      rcases hb with hb | hb <;> rw [hb] <;> simp
    rw [ClusterAnalysis.roi, ClusterAnalysis.profit]
    rcases hcoerce with hc | hc <;> rw [hc] <;>
      cases hr : ClusterAnalysis.to_numeric_coerce r <;>
        simp [pfSub, pfDiv, pfMul, isFin, beq_iff_eq] <;>
          (try split_ifs) <;> (try simp [isFin])

/-- C5 witness: budget cell 0 and revenue cell 100 — no ROI in the simple
script, a non-finite ROI in the pandas script. -/
theorem c5_zero_budget_roi_witness :
    SimpleCluster.rowRoi ("0") ("100") = none ∧
    isFin (ClusterAnalysis.roi ("0") ("100")) = false :=
  c5_zero_budget_roi ("0") ("100") (Or.inl (by decide))
